import Mathlib

/-!
Verification of the turn-guidance decision engine of the negotiation-simulation
backend (files `logic.py`, `ai_service.py`, `main.py`).

Shallow embedding conventions:
- Python strings are Lean `String`s; the per-character work (lowercasing,
  stripping, substring tests, the regular-expression scans) is done on
  `List Char`.
- Python floats are embedded as exact rationals `ℚ`; `round(x, 2)` is embedded
  as rounding of `100 * x` to the nearest integer on exact rationals.
- Python truthiness of an optional number (`if x:`) is `pyTruthy`: absent or
  zero is falsy.
- Fallible code (raising exceptions) returns `Except String _`; the exception
  message stands for the Python exception.
- The two text-oracle calls (Claude extraction and the reply generation) are
  external collaborators: their outcomes are explicit inputs of the embedded
  functions.
- The pseudo-random generator of `random` is embedded as an explicit state
  machine `RandomModule`: `random.seed` resets the state, each draw consumes
  and returns state.
-/

/-- Python whitespace class `\s` over ASCII: space, tab, newline, carriage
return, form feed, vertical tab. -/
def pySpaceChar (c : Char) : Bool :=
  c = ' ' || c = '\t' || c = '\n' || c = '\r' || c = '\x0c' || c = '\x0b'

/-- Python `str.lower()` restricted to the ASCII texts this program handles,
as a character list. -/
def lcs (s : String) : List Char :=
  s.toList.map Char.toLower

/-- Python `str.strip()` on a character list: drop leading and trailing
whitespace. -/
def pyStripChars (l : List Char) : List Char :=
  ((l.dropWhile pySpaceChar).reverse.dropWhile pySpaceChar).reverse

/-- Python `s.strip().lower()` as used by the stalemate comparison. -/
def pyStripLower (s : String) : List Char :=
  (pyStripChars s.toList).map Char.toLower

/-- Python substring containment `needle in hay` on character lists. -/
def containsSub (needle : List Char) : List Char → Bool
  | [] => needle.isEmpty
  | c :: rest => needle.isPrefixOf (c :: rest) || containsSub needle rest

/-- Python substring containment between two strings. -/
def strContains (needle hay : String) : Bool :=
  containsSub needle.toList hay.toList

/-- Value of a digit run (most significant first). -/
def parseDigits (l : List Char) : ℕ :=
  l.foldl (fun a c => a * 10 + (c.toNat - 48)) 0

/-- Python `float` on a matched numeral with integer part `ip` (commas already
removed) and fractional digit part `f`; `f = []` when the regex matched no
fractional group. -/
def parseFloatChars (ip f : List Char) : ℚ :=
  if f.isEmpty then (parseDigits ip : ℚ)
  else (parseDigits ip : ℚ) + (parseDigits f : ℚ) / (10 ^ f.length : ℚ)

/-- Python `float` applied to a group matched by `[0-9.]+` (the opening-price
fallback): it succeeds exactly when the group has at most one dot and at least
one digit, and raises `ValueError` otherwise. -/
def pyFloatDots (l : List Char) : Option ℚ :=
  if l.count '.' ≤ 1 && l.any Char.isDigit then
    some (parseFloatChars (l.takeWhile (· ≠ '.')) ((l.dropWhile (· ≠ '.')).drop 1))
  else none

/-- One attempt of the price pattern `\$\s*([0-9][0-9,]*(?:\.\d+)?)` at a
position starting with `$`: returns the parsed group value and the remainder
after the match, or `none` when the position does not match. -/
def priceMatchHere (afterDollar : List Char) : Option (ℚ × List Char) :=
  let afterWs := afterDollar.dropWhile pySpaceChar
  match afterWs with
  | [] => none
  | c :: _ =>
    if c.isDigit then
      let body := afterWs.takeWhile (fun d => d.isDigit || d = ',')
      let rest := afterWs.dropWhile (fun d => d.isDigit || d = ',')
      match rest with
      | '.' :: d :: _ =>
        if d.isDigit then
          let fr := (rest.drop 1).takeWhile Char.isDigit
          let rest2 := (rest.drop 1).dropWhile Char.isDigit
          some (parseFloatChars (body.filter (· ≠ ',')) fr, rest2)
        else some (parseFloatChars (body.filter (· ≠ ',')) [], rest)
      | _ => some (parseFloatChars (body.filter (· ≠ ',')) [], rest)
    else none

/-- `re.findall(r'\$\s*([0-9][0-9,]*(?:\.\d+)?)', text)` with each group
converted by `float`: all matches in order, scanning left to right,
non-overlapping. The fuel argument starts at the text length and bounds the
recursion; it never runs out because every step consumes at least one
character. -/
def priceScanAux : ℕ → List Char → List ℚ
  | 0, _ => []
  | _ + 1, [] => []
  | fuel + 1, c :: rest =>
    if c = '$' then
      match priceMatchHere rest with
      | some (v, rest2) => v :: priceScanAux fuel rest2
      | none => priceScanAux fuel rest
    else priceScanAux fuel rest

/-- All prices mentioned in a text, in order. -/
def priceScan (l : List Char) : List ℚ :=
  priceScanAux l.length l

/-- `re.findall(r'(\d+)\s*days?', text)` with each group converted by `int`:
all matches in order on an (already lowercased) text. -/
def dayScanAux : ℕ → List Char → List ℕ
  | 0, _ => []
  | _ + 1, [] => []
  | fuel + 1, c :: rest =>
    if c.isDigit then
      let digits := (c :: rest).takeWhile Char.isDigit
      let r1 := (c :: rest).dropWhile Char.isDigit
      let r2 := r1.dropWhile pySpaceChar
      match r2 with
      | 'd' :: 'a' :: 'y' :: tail =>
        match tail with
        | 's' :: tail2 => parseDigits digits :: dayScanAux fuel tail2
        | _ => parseDigits digits :: dayScanAux fuel tail
      | _ => dayScanAux fuel rest
    else dayScanAux fuel rest

/-- All day counts mentioned in a text, in order. -/
def dayScan (l : List Char) : List ℕ :=
  dayScanAux l.length l

/-- `re.search(r'Opening Price: \$([0-9.]+)', text)`: the first matched group,
scanning left to right. -/
def openingScanAux : ℕ → List Char → Option (List Char)
  | 0, _ => none
  | _ + 1, [] => none
  | fuel + 1, c :: rest =>
    if ("Opening Price: $".toList).isPrefixOf (c :: rest) then
      let grp := ((c :: rest).drop 16).takeWhile (fun d => d.isDigit || d = '.')
      if grp.isEmpty then openingScanAux fuel rest else some grp
    else openingScanAux fuel rest

/-- First `Opening Price: $` group of the deal-parameters text, if any. -/
def openingScan (l : List Char) : Option (List Char) :=
  openingScanAux l.length l

/-! ## Data model -/

/-- A conversation message `{role, content}`. -/
structure Message where
  role : String
  content : String
deriving DecidableEq, Repr

/-- The three-field structured terms value `{price, delivery, volume}` used
both for the oracle extraction result of the current turn and for the
consolidated `final_terms` of `detect_deal_readiness`; a missing or `null`
entry is `none`. -/
structure ExtractedTerms where
  price : Option ℚ
  delivery : Option ℚ
  volume : Option ℚ
deriving DecidableEq, Repr

/-- Python truthiness of an optional float: `None` and `0.0` are falsy. -/
def pyTruthy : Option ℚ → Bool
  | none => false
  | some q => decide (q ≠ 0)

instance {ε α : Type} [DecidableEq ε] [DecidableEq α] :
    DecidableEq (Except ε α) := fun a b =>
  match a, b with
  | .error e, .error e' => by
      cases h : decide (e = e') with
      | true => exact isTrue (by simp_all)
      | false => exact isFalse (by simp_all)
  | .error _, .ok _ => isFalse (by simp)
  | .ok _, .error _ => isFalse (by simp)
  | .ok v, .ok v' => by
      cases h : decide (v = v') with
      | true => exact isTrue (by simp_all)
      | false => exact isFalse (by simp_all)

/-! ## logic.py: deal detection -/

/-- The fixed affirmative vocabulary of `detect_deal_readiness`. -/
def strong_signals : List String :=
  ["i accept", "we accept", "accepted", "i agree", "we agree", "agreed",
   "deal confirmed", "confirm deal", "confirm the deal",
   "sounds good", "works for me", "perfect", "it\x27s a deal", "its a deal",
   "let\x27s do it", "lets do it", "i can do that", "that works",
   "done", "fine", "ok deal", "okay deal", "deal"]

/-- The negation vocabulary of `detect_deal_readiness`. -/
def negations : List String :=
  ["don\x27t", "dont", "cannot", "can\x27t", "won\x27t", "not", "unable"]

/-- Agreement-signal check of `detect_deal_readiness` on the (lowercased)
content of the inspected message: some affirmative phrase occurs, and the
signal is not suppressed by a co-occurring negation token without an explicit
confirmation token. -/
def hasAgreementSignal (content : List Char) : Bool :=
  (strong_signals.any fun p => containsSub p.toList content) &&
    !((negations.any fun n => containsSub n.toList content) &&
      !containsSub "confirmed".toList content &&
      !containsSub "agreed".toList content)

/-- `final_terms` after consolidating the oracle extraction of the current
turn (`final_terms.update(current_extracted_terms)` over an all-`None`
dictionary). -/
def initialTerms : Option ExtractedTerms → ExtractedTerms
  | none => ⟨none, none, none⟩
  | some e => ⟨e.price, e.delivery, e.volume⟩

/-- Backfill loop of `detect_deal_readiness` over `reversed(history)`: for each
assistant message, pattern-extract the first price and the first day count into
the still-unresolved fields, stopping once both price and delivery are truthy. -/
def backfillTerms : List Message → ExtractedTerms → ExtractedTerms
  | [], t => t
  | m :: rest, t =>
    if m.role = "assistant" then
      let t1 := if t.price = none then
          { t with price := (priceScan m.content.toList).head? } else t
      let t2 := if t1.delivery = none then
          { t1 with delivery := ((dayScan (lcs m.content)).head?.map fun n => (n : ℚ)) }
        else t1
      if pyTruthy t2.price && pyTruthy t2.delivery then t2 else backfillTerms rest t2
    else backfillTerms rest t

/-- The consolidated terms available to the readiness check: current-turn
extraction merged with the backward scan of the history. -/
def resolvedTerms (history : List Message) (current : Option ExtractedTerms) :
    ExtractedTerms :=
  backfillTerms history.reverse (initialTerms current)

/-- `logic.detect_deal_readiness(history, current_extracted_terms)`. -/
def detect_deal_readiness (history : List Message)
    (current : Option ExtractedTerms) : Bool × Option ExtractedTerms :=
  if history.length < 2 then (false, none)
  else
    let content := lcs (history.getLastD ⟨"", ""⟩).content
    let has_signal := hasAgreementSignal content
    let ft :=
      if has_signal then resolvedTerms history current else initialTerms current
    if has_signal && ft.price.isSome && ft.delivery.isSome then (true, some ft)
    else (false, none)

/-! ## logic.py: deal parameter generation -/

/-- `round(x, 2)` on exact rationals: round `100 * x` to the nearest integer
and scale back. -/
def round2 (x : ℚ) : ℚ :=
  ((round (x * 100) : ℤ) : ℚ) / 100

/-- Python `int()` on a float: truncation toward zero. -/
def pyTrunc (q : ℚ) : ℤ :=
  if 0 ≤ q then ⌊q⌋ else ⌈q⌉

/-- A seed value accepted by `generate_deal_parameters`: a string (the student
id) or an integer. -/
def PySeed : Type := String ⊕ ℤ

/-- The `random` module as an explicit deterministic state machine: `seedInt`
is `random.seed(n)` producing a fresh state, `uniform`/`randint` are the draws,
`hashStr` is the process-stable `hash` on strings. -/
structure RandomModule where
  S : Type
  seedInt : ℤ → S
  hashStr : String → ℤ
  uniform : S → ℚ → ℚ → ℚ × S
  randint : S → ℤ → ℤ → ℤ × S

/-- `hash(seed) % (2**32)` for string seeds, the integer itself otherwise. -/
def pySeedNum (R : RandomModule) : PySeed → ℤ
  | .inl s => Int.emod (R.hashStr s) (2 ^ 32)
  | .inr n => n

/-- The three price anchor points. -/
structure PriceParams where
  opening : ℚ
  target : ℚ
  reservation : ℚ
deriving DecidableEq, Repr

/-- The three delivery anchor points (days). -/
structure DeliveryParams where
  opening : ℤ
  target : ℤ
  reservation : ℤ
deriving DecidableEq, Repr

/-- The hidden deal parameters of a session. -/
structure DealParameters where
  price : PriceParams
  delivery : DeliveryParams
  standard_volume : ℕ
deriving DecidableEq, Repr

/-- The draw sequence of `generate_deal_parameters` from a generator state:
opening/target/reservation price and delivery and the fixed standard volume.
Returns the parameters and the final generator state. -/
def drawDealParameters (R : RandomModule) (s1 : R.S) : DealParameters × R.S :=
  let d1 := R.uniform s1 30 50
  let opening_price := round2 (d1.1 * 10)
  let d2 := R.uniform d1.2 (5 / 100) (8 / 100)
  let target_price := round2 (opening_price * (1 - d2.1))
  let d3 := R.uniform d2.2 (12 / 100) (15 / 100)
  let reservation_price := round2 (opening_price * (1 - d3.1))
  let d4 := R.randint d3.2 25 45
  let opening_delivery := d4.1
  let target_delivery := pyTrunc ((d4.1 : ℚ) * (85 / 100))
  let reservation_delivery := pyTrunc ((d4.1 : ℚ) * (70 / 100))
  (⟨⟨opening_price, target_price, reservation_price⟩,
    ⟨opening_delivery, target_delivery, reservation_delivery⟩, 1000⟩, d4.2)

/-- `logic.generate_deal_parameters(seed)`: reseed the generator when a seed is
given (string seeds reduced by `hash(seed) % 2**32`), then perform the draws. -/
def generate_deal_parameters (R : RandomModule) (seed : Option PySeed)
    (s0 : R.S) : DealParameters × R.S :=
  drawDealParameters R
    (match seed with
     | none => s0
     | some sv => R.seedInt (pySeedNum R sv))

/-! ## ai_service.py: turn guidance -/

/-- The structured rendering of the guidance instruction strings emitted by
`generate_turn_guidance`; each constructor carries exactly the numbers that
the corresponding f-string interpolates. -/
inductive TurnGuidance where
  | dealDetected (price delivery : Option ℚ)
  | deliveryMissing
  | priceUnclear
  | volumePenalty (volume lastPrice : ℚ)
  | typoCheck (userPrice lastPrice : ℚ)
  | holdFirmStalemate (lastPrice : ℚ)
  | lowball (userPrice nextPrice : ℚ)
  | significantMove (nextPrice : ℚ)
  | standardMove (nextPrice : ℚ)
  | holdDiscussDelivery (lastPrice : ℚ)
  | negotiateProfessionally
deriving DecidableEq, Repr

/-- `extract_price` over the assistant history scan of
`generate_turn_guidance`: walk the reversed history, and return the last price
mentioned in the most recent assistant message whose last price is truthy
(`p = extract_price(content); if p: ... break`). -/
def scanLastAiPrice : List Message → Option ℚ
  | [] => none
  | m :: rest =>
    if m.role = "assistant" then
      match (priceScan m.content.toList).getLast? with
      | some p => if p ≠ 0 then some p else scanLastAiPrice rest
      | none => scanLastAiPrice rest
    else scanLastAiPrice rest

/-- The `last_ai_price` anchor resolution of `generate_turn_guidance`: most
recent truthy assistant price, else `float` of the first
`Opening Price: $...` group of the deal-parameters text (raising `ValueError`
on a malformed group), else the fixed default `400.0`. -/
def lastAiAnchor (history : List Message) (deal_params_str : String) :
    Except String ℚ :=
  match scanLastAiPrice history.reverse with
  | some p => .ok p
  | none =>
    if deal_params_str ≠ "" then
      match openingScan deal_params_str.toList with
      | some grp =>
        match pyFloatDots grp with
        | some v => .ok v
        | none => .error "ValueError: could not convert string to float"
      | none => .ok 400
    else .ok 400

/-- The agreement vocabulary of RULE A in `generate_turn_guidance`. -/
def agreement_words : List String :=
  ["deal", "agree", "accept", "done", "sounds good", "okay"]

/-- `is_agreement`: some agreement word occurs in the lowercased user input. -/
def isAgreement (user_input : String) : Bool :=
  agreement_words.any fun w => containsSub w.toList (lcs user_input)

/-- RULE A of `generate_turn_guidance`. `terms` is the second component of the
readiness result (always `None` on this path). The check
`not user_delivery and not terms['delivery']` subscripts `terms`, so when the
user delivery is falsy and `terms` is `None` it raises `TypeError`;
`.ok (some g)` is an early return, `.ok none` falls through to the later
rules. -/
def ruleAResult (ex : ExtractedTerms) (user_input : String) (last_ai_price : ℚ)
    (terms : Option ExtractedTerms) : Except String (Option TurnGuidance) :=
  if isAgreement user_input then
    match
      (if pyTruthy ex.delivery then Except.ok false
       else
         match terms with
         | none => Except.error "TypeError: NoneType object is not subscriptable"
         | some t => Except.ok (!pyTruthy t.delivery) : Except String Bool)
    with
    | .error e => .error e
    | .ok true => .ok (some .deliveryMissing)
    | .ok false =>
      if !pyTruthy ex.price && decide (last_ai_price = 0) then
        .ok (some .priceUnclear)
      else .ok none
  else .ok none

/-- RULE D guard of `generate_turn_guidance`: the history has at least two
entries, `history[-2]` has role `user`, and its content equals the current
user input up to `strip().lower()`. -/
def stalemateGuard (user_input : String) (history : List Message) : Bool :=
  decide (2 ≤ history.length) &&
    (history.getD (history.length - 2) ⟨"", ""⟩).role = "user" &&
    pyStripLower user_input =
      pyStripLower (history.getD (history.length - 2) ⟨"", ""⟩).content

/-- Rules B through E of `generate_turn_guidance` (everything after the deal
check, the anchor resolution and RULE A fell through). -/
def laterRules (ex : ExtractedTerms) (user_input : String)
    (history : List Message) (last_ai_price : ℚ) : Except String TurnGuidance :=
  if pyTruthy ex.volume && decide (ex.volume.getD 0 < (1000 : ℚ)) then
    .ok (.volumePenalty (ex.volume.getD 0) last_ai_price)
  else if pyTruthy ex.price && decide (ex.price.getD 0 > last_ai_price) then
    .ok (.typoCheck (ex.price.getD 0) last_ai_price)
  else if stalemateGuard user_input history then
    .ok (.holdFirmStalemate last_ai_price)
  else if pyTruthy ex.price then
    if last_ai_price = 0 then .error "ZeroDivisionError: float division by zero"
    else
      let p := ex.price.getD 0
      let gap := (last_ai_price - p) / last_ai_price
      if gap > 20 / 100 then
        .ok (.lowball p (round2 (last_ai_price * (995 / 1000))))
      else if gap < 10 / 100 then
        .ok (.significantMove (round2 (last_ai_price * (975 / 1000))))
      else .ok (.standardMove (round2 (last_ai_price * (985 / 1000))))
  else .ok (.holdDiscussDelivery last_ai_price)

/-- `ai_service.generate_turn_guidance(user_input, history, deal_params_str)`.
The oracle extraction of the current user message is the explicit input `ex`.
The `standard_vol` baseline is `1000` on both branches of its parse check, as
in the source. -/
def generate_turn_guidance (ex : ExtractedTerms) (user_input : String)
    (history : List Message) (deal_params_str : String) :
    Except String TurnGuidance :=
  let d := detect_deal_readiness history (some ex)
  if d.1 then
    match d.2 with
    | some t => .ok (.dealDetected t.price t.delivery)
    | none => .error "TypeError: NoneType object is not subscriptable"
  else
    let _standard_vol : ℚ :=
      if deal_params_str ≠ "" &&
          containsSub "Standard Order = 1000".toList deal_params_str.toList
      then 1000 else 1000
    match lastAiAnchor history deal_params_str with
    | .error e => .error e
    | .ok last_ai_price =>
      match ruleAResult ex user_input last_ai_price d.2 with
      | .error e => .error e
      | .ok (some g) => .ok g
      | .ok none => laterRules ex user_input history last_ai_price

/-- The guidance actually embedded into the oracle prompt by
`create_negotiation_prompt`: any exception from `generate_turn_guidance` is
caught and replaced by the generic fallback instruction. -/
def computeTurnGuidance (ex : ExtractedTerms) (user_input : String)
    (history : List Message) (deal_params_str : String) : TurnGuidance :=
  match generate_turn_guidance ex user_input history deal_params_str with
  | .ok g => g
  | .error _ => .negotiateProfessionally

/-! ## ai_service.py: oracle term extraction -/

/-- JSON values as returned by `json.loads`. -/
inductive Jv where
  | null
  | num (q : ℚ)
  | str (s : String)
  | arr (items : List Jv)
  | obj (fields : List (String × Jv))

/-- The all-absent fallback dictionary
`{"price": None, "delivery": None, "volume": None}`. -/
def allAbsentTermsJv : Jv :=
  .obj [("price", .null), ("delivery", .null), ("volume", .null)]

/-- One attempt of `re.sub(r'```json\s*|\s*```', '', ...)` at the current
position: the left alternative `` ```json\s* `` first, then `` \s*``` ``.
Returns the remainder after the removed match, or `none`. -/
def fenceMatchHere (l : List Char) : Option (List Char) :=
  if ("```json".toList).isPrefixOf l then
    some ((l.drop 7).dropWhile pySpaceChar)
  else
    let r := l.dropWhile pySpaceChar
    if ("```".toList).isPrefixOf r then some (r.drop 3) else none

/-- The code-fence cleanup `re.sub(r'```json\s*|\s*```', '', text)`. -/
def cleanJsonAux : ℕ → List Char → List Char
  | 0, l => l
  | _ + 1, [] => []
  | fuel + 1, c :: rest =>
    match fenceMatchHere (c :: rest) with
    | some rem => cleanJsonAux fuel rem
    | none => c :: cleanJsonAux fuel rest

/-- Cleaned response text handed to `json.loads`. -/
def clean_json (l : List Char) : List Char :=
  cleanJsonAux l.length l

/-- `ai_service.extract_negotiation_terms`: the whole oracle call and parse
runs inside one `try`. `bedrockOutcome` is the oracle call outcome (the raw
response text on success), `loads` is `json.loads`. Any exception — oracle
failure or parse failure — yields the all-absent dictionary. -/
def extract_negotiation_terms (loads : List Char → Except String Jv)
    (bedrockOutcome : Except String String) : Jv :=
  match bedrockOutcome with
  | .error _ => allAbsentTermsJv
  | .ok raw =>
    match loads (clean_json (pyStripChars raw.toList)) with
    | .error _ => allAbsentTermsJv
    | .ok data => data

/-! ## main.py: the chat turn -/

/-- The history seen by `create_negotiation_prompt`: the stored conversation
with the current user input already appended (`main.chat` step 2). -/
def guidanceHistory (conversation : List Message) (user_input : String) :
    List Message :=
  conversation ++ [⟨"user", user_input⟩]

/-- The conversation stored after a chat turn: user input then assistant
reply appended (`main.chat` steps 2 and 3). -/
def chatHistory (conversation : List Message) (user_input ai_response : String) :
    List Message :=
  conversation ++ [⟨"user", user_input⟩, ⟨"assistant", ai_response⟩]

/-- The `deal_ready`/`proposed_terms` pair returned by the chat endpoint:
`detect_deal_readiness` on the updated conversation, with no current-turn
extraction (`main.chat` step 5). -/
def chatDealReady (conversation : List Message)
    (user_input ai_response : String) : Bool × Option ExtractedTerms :=
  detect_deal_readiness (chatHistory conversation user_input ai_response) none

/-! ## Shared helper lemmas -/

/-- Rounding to two decimals moves a value by at most `1/200`. -/
theorem round2_bounds (x : ℚ) : x - 1 / 200 ≤ round2 x ∧ round2 x ≤ x + 1 / 200 := by
  have h := abs_sub_round (x * 100)
  rw [abs_le] at h
  unfold round2
  constructor <;> linarith [h.1, h.2]

/-- With the draw ranges of `generate_deal_parameters`, the three price anchors
are strictly ordered even after rounding each to two decimals. -/
theorem priceAnchorsOrdered (u t r : ℚ) (hu : 30 ≤ u) (hu2 : u ≤ 50)
    (ht : 5 / 100 ≤ t) (ht2 : t ≤ 8 / 100)
    (hr : 12 / 100 ≤ r) (hr2 : r ≤ 15 / 100) :
    round2 (round2 (u * 10) * (1 - r)) < round2 (round2 (u * 10) * (1 - t)) ∧
    round2 (round2 (u * 10) * (1 - t)) < round2 (u * 10) := by
  obtain ⟨hoa, hob⟩ := round2_bounds (u * 10)
  set op := round2 (u * 10) with hop
  obtain ⟨hta, htb⟩ := round2_bounds (op * (1 - t))
  obtain ⟨hra, hrb⟩ := round2_bounds (op * (1 - r))
  have hop1 : (299 : ℚ) ≤ op := by linarith
  have h1 : op * (r - t) ≥ 299 * (4 / 100) := by
    have : op * (4 / 100) ≤ op * (r - t) := by
      apply mul_le_mul_of_nonneg_left (by linarith) (by linarith)
    nlinarith
  have h2 : op * t ≥ 299 * (5 / 100) := by
    have : op * (5 / 100) ≤ op * t := by
      apply mul_le_mul_of_nonneg_left (by linarith) (by linarith)
    nlinarith
  constructor
  · nlinarith [hta, hrb]
  · nlinarith [htb]

/-- With the `randint(25, 45)` range, the truncated delivery anchors are
strictly ordered. -/
theorem deliveryAnchorsOrdered (d : ℤ) (h1 : 25 ≤ d) (h2 : d ≤ 45) :
    pyTrunc ((d : ℚ) * (70 / 100)) < pyTrunc ((d : ℚ) * (85 / 100)) ∧
    pyTrunc ((d : ℚ) * (85 / 100)) < d := by
  interval_cases d <;> norm_num [pyTrunc]

/-- The draw sequence produces strictly ordered price and delivery anchors for
any generator whose `uniform` and `randint` respect their ranges. -/
theorem draw_ordered (R : RandomModule) (s1 : R.S)
    (hU : ∀ s a b, a ≤ b → a ≤ (R.uniform s a b).1 ∧ (R.uniform s a b).1 ≤ b)
    (hR : ∀ s a b, a ≤ b → a ≤ (R.randint s a b).1 ∧ (R.randint s a b).1 ≤ b) :
    ((drawDealParameters R s1).1.price.reservation <
        (drawDealParameters R s1).1.price.target ∧
      (drawDealParameters R s1).1.price.target <
        (drawDealParameters R s1).1.price.opening) ∧
    (drawDealParameters R s1).1.delivery.reservation <
        (drawDealParameters R s1).1.delivery.target ∧
      (drawDealParameters R s1).1.delivery.target <
        (drawDealParameters R s1).1.delivery.opening := by
  obtain ⟨hua, hub⟩ := hU s1 30 50 (by norm_num)
  obtain ⟨hta, htb⟩ := hU (R.uniform s1 30 50).2 (5 / 100) (8 / 100) (by norm_num)
  obtain ⟨hra, hrb⟩ :=
    hU (R.uniform (R.uniform s1 30 50).2 (5 / 100) (8 / 100)).2 (12 / 100)
      (15 / 100) (by norm_num)
  obtain ⟨hda, hdb⟩ :=
    hR (R.uniform (R.uniform (R.uniform s1 30 50).2 (5 / 100) (8 / 100)).2
        (12 / 100) (15 / 100)).2 25 45 (by norm_num)
  unfold drawDealParameters
  exact ⟨priceAnchorsOrdered _ _ _ hua hub hta htb hra hrb,
    deliveryAnchorsOrdered _ hda hdb⟩

/-- Evaluation of `generate_turn_guidance` down to the gap-tier rule: when the
deal check, RULE A, the volume rule, the typo rule and the stalemate rule all
fall through and a nonzero price was extracted against a nonzero anchor, the
emitted move is exactly the three-tier concession formula. -/
theorem guidance_gap_eval (ex : ExtractedTerms) (ui : String) (h : List Message)
    (dps : String) (p A : ℚ)
    (hp : ex.price = some p) (hp0 : p ≠ 0)
    (hdeal : (detect_deal_readiness h (some ex)).1 = false)
    (hanchor : lastAiAnchor h dps = .ok A)
    (hruleA : ruleAResult ex ui A (detect_deal_readiness h (some ex)).2 = .ok none)
    (hvol : (pyTruthy ex.volume && decide (ex.volume.getD 0 < (1000 : ℚ))) = false)
    (htypo : ¬ p > A)
    (hstale : stalemateGuard ui h = false)
    (hA0 : A ≠ 0) :
    generate_turn_guidance ex ui h dps =
      .ok (if (A - p) / A > 20 / 100 then .lowball p (round2 (A * (995 / 1000)))
           else if (A - p) / A < 10 / 100 then
             .significantMove (round2 (A * (975 / 1000)))
           else .standardMove (round2 (A * (985 / 1000)))) := by
  unfold generate_turn_guidance
  rw [hanchor]
  simp only [hdeal, Bool.false_eq_true, if_false, hruleA]
  unfold laterRules
  rw [hvol]
  simp only [hp, pyTruthy, Option.getD_some, decide_eq_false htypo, Bool.and_false,
    Bool.false_eq_true, if_false, hstale, decide_eq_true_eq, if_neg hA0,
    decide_eq_false_iff_not, decide_eq_true hp0]
  split_ifs <;> rfl

/-! ## Claim-side vocabulary -/

/-- The most recent message with role `user`, as named by the specification of
the readiness contract. -/
def mostRecentUserMessage (h : List Message) : Option Message :=
  (h.filter fun m => m.role = "user").getLast?

/-- The negation tokens listed by the specification. -/
def claimNegationTokens : List String :=
  ["not", "don\x27t", "cannot", "can\x27t", "won\x27t", "unable"]

/-- The deal-parameters text has a well-formed first `Opening Price: $` group
(or none at all), so that the Python `float` conversion of the anchor fallback
cannot raise. Every `format_deal_parameters` output satisfies this. -/
def openingWellFormed (dps : String) : Bool :=
  match openingScan dps.toList with
  | none => true
  | some grp => (pyFloatDots grp).isSome

/-- A trivial concrete generator used to instantiate the random-module
theorems: every draw returns the lower bound of its range. -/
def R0 : RandomModule :=
  ⟨Unit, fun _ => (), fun _ => 0, fun s a _ => (a, s), fun s a _ => (a, s)⟩

/-- The session greeting used by the concrete scenarios. -/
def greetConv : List Message :=
  [⟨"assistant", "Hello, I am Alex from ChipSource."⟩]

/-- A conversation in which the counterpart has an offer of 400 dollars and
30 days on the table. -/
def offer400conv : List Message :=
  [⟨"assistant", "We can offer $400 with 30 days delivery."⟩]

/-! ## Claim C1 -/

/-- Claim C1: per the specification, an agreement signal without a resolvable
delivery term should make `generate_turn_guidance` emit the do-not-confirm,
delivery-still-open instruction. On the code this branch is unreachable: the
readiness detector returned `(False, None)`, so the guard
`not user_delivery and not terms['delivery']` subscripts `None` and raises
`TypeError`; `create_negotiation_prompt` catches the exception and the turn
degrades to the generic fallback instruction instead. The conjuncts record
that the premises of the claim hold at this input (agreement word present,
detector not ready, no delivery term anywhere), that the engine raises, and
that the delivered guidance is the fallback, not the delivery-missing
instruction. -/
theorem c1_rule2_crashes_to_fallback :
    isAgreement "deal" = true ∧
    detect_deal_readiness (guidanceHistory greetConv "deal")
      (some ⟨none, none, none⟩) = (false, none) ∧
    dayScan (lcs "Hello, I am Alex from ChipSource.") = [] ∧
    generate_turn_guidance ⟨none, none, none⟩ "deal"
      (guidanceHistory greetConv "deal") "" =
      .error "TypeError: NoneType object is not subscriptable" ∧
    computeTurnGuidance ⟨none, none, none⟩ "deal"
      (guidanceHistory greetConv "deal") "" = .negotiateProfessionally ∧
    computeTurnGuidance ⟨none, none, none⟩ "deal"
      (guidanceHistory greetConv "deal") "" ≠ .deliveryMissing := by decide

/-! ## Claim C2 -/

/-- The assistant reply appended by the chat turn in the C2 counterexample. -/
def c2reply : String := "Deal confirmed: $400 with 30 days delivery."

/-- Claim C2, counterexample: the chat endpoint reports `deal_ready = true`
although the most recent user message ("hi") carries no agreement signal. The
detector reads the signal from the final history entry, which at the endpoint
call is the assistant reply just appended, not the most recent user message as
the claim states. -/
theorem c2_signal_not_from_user_message :
    chatDealReady greetConv "hi" c2reply = (true, some ⟨some 400, some 30, none⟩) ∧
    mostRecentUserMessage (chatHistory greetConv "hi" c2reply) =
      some ⟨"user", "hi"⟩ ∧
    hasAgreementSignal (lcs "hi") = false := by decide

/-- Claim C2, amended: `detect_deal_readiness` returns ready exactly when the
history has at least 2 messages, the final message of the history (whatever
its role) carries a non-negated affirmative phrase, and both price and
delivery are resolvable from the current extraction merged with the backward
assistant scan; in every other case it returns `(false, none)`, and on success
it returns exactly the consolidated terms. -/
theorem c2_readiness_last_message_contract (h : List Message)
    (c : Option ExtractedTerms) :
    ((detect_deal_readiness h c).1 = true ↔
      2 ≤ h.length ∧
      hasAgreementSignal (lcs (h.getLastD ⟨"", ""⟩).content) = true ∧
      (resolvedTerms h c).price.isSome = true ∧
      (resolvedTerms h c).delivery.isSome = true) ∧
    (detect_deal_readiness h c = (false, none) ∨
      detect_deal_readiness h c = (true, some (resolvedTerms h c))) := by
  unfold detect_deal_readiness
  by_cases hlen : h.length < 2
  · rw [if_pos hlen]
    refine ⟨⟨fun hx => by simp at hx, fun ⟨h2, _⟩ => by omega⟩, Or.inl rfl⟩
  · rw [if_neg hlen]
    by_cases hsig : hasAgreementSignal (lcs (h.getLastD ⟨"", ""⟩).content) = true
    · simp only [hsig, if_true]
      by_cases hp : (resolvedTerms h c).price.isSome = true
      · by_cases hd : (resolvedTerms h c).delivery.isSome = true
        · simp only [hp, hd, Bool.and_true, if_true]
          exact ⟨⟨fun _ => ⟨by omega, trivial, trivial, trivial⟩, fun _ => trivial⟩,
            Or.inr trivial⟩
        · simp only [hp, Bool.not_eq_true] at hd ⊢
          simp only [hd, Bool.and_false, if_false]
          exact ⟨⟨fun hx => by simp at hx, fun ⟨_, _, _, hdd⟩ => by simp [hd] at hdd⟩,
            Or.inl rfl⟩
      · simp only [Bool.not_eq_true] at hp
        simp only [hp, Bool.and_false, Bool.false_and, if_false]
        exact ⟨⟨fun hx => by simp at hx, fun ⟨_, _, hpp, _⟩ => by simp [hp] at hpp⟩,
          Or.inl rfl⟩
    · simp only [Bool.not_eq_true] at hsig
      simp only [hsig, Bool.false_and, if_false]
      exact ⟨⟨fun hx => by simp at hx, fun ⟨_, hss, _, _⟩ => by simp [hsig] at hss⟩,
        Or.inl rfl⟩

/-- Claim C2, witness: the amended contract applied to the counterexample
history, recovering the concrete conditions that make the endpoint report
readiness. -/
theorem c2_readiness_last_message_contract_witness :
    2 ≤ (chatHistory greetConv "hi" c2reply).length ∧
    hasAgreementSignal
      (lcs ((chatHistory greetConv "hi" c2reply).getLastD ⟨"", ""⟩).content) = true ∧
    (resolvedTerms (chatHistory greetConv "hi" c2reply) none).price.isSome = true ∧
    (resolvedTerms (chatHistory greetConv "hi" c2reply) none).delivery.isSome = true :=
  (c2_readiness_last_message_contract (chatHistory greetConv "hi" c2reply)
    none).1.mp (by decide)

/-! ## Claim C3 -/

/-- The conversation of the stalemate scenario: the user already offered 300,
the counterpart countered at 400, and the user repeats the identical message. -/
def c3conv : List Message :=
  [⟨"assistant", "Hello, I am Alex from ChipSource."⟩,
   ⟨"user", "I offer $300"⟩,
   ⟨"assistant", "I can do $400 with 30 days delivery."⟩]

/-- Claim C3: per the specification, the second occurrence of an identical
user message must trigger the hold-firm stalemate rule at the counterpart
price. In the chat flow the current user message is appended to the history
before the engine runs, so `history[-2]` is the assistant counter, the
rule guard `history[-2].get('role') == 'user'` is false, and the repeated
message falls through to the gap rule, which emits a lowball counter of
exactly 398 instead of holding firm at 400. The first conjunct records that
the two user messages are identical, the second and third that the guard
inspects an assistant entry and fails. -/
theorem c3_stalemate_unreachable_in_chat_flow :
    ((guidanceHistory c3conv "I offer $300").filter
        (fun m => m.role = "user")).map Message.content =
      ["I offer $300", "I offer $300"] ∧
    ((guidanceHistory c3conv "I offer $300").getD
        ((guidanceHistory c3conv "I offer $300").length - 2) ⟨"", ""⟩).role =
      "assistant" ∧
    stalemateGuard "I offer $300" (guidanceHistory c3conv "I offer $300") = false ∧
    generate_turn_guidance ⟨some 300, none, none⟩ "I offer $300"
      (guidanceHistory c3conv "I offer $300") "" = .ok (.lowball 300 398) ∧
    generate_turn_guidance ⟨some 300, none, none⟩ "I offer $300"
      (guidanceHistory c3conv "I offer $300") "" ≠ .ok (.holdFirmStalemate 400) := by
  have h4 : generate_turn_guidance ⟨some 300, none, none⟩ "I offer $300"
      (guidanceHistory c3conv "I offer $300") "" = .ok (.lowball 300 398) := by
    have h := guidance_gap_eval ⟨some 300, none, none⟩ "I offer $300"
      (guidanceHistory c3conv "I offer $300") "" 300 400
      rfl (by norm_num) (by decide) (by decide) (by decide) (by decide)
      (by norm_num) (by decide) (by norm_num)
    rw [h, if_pos (by norm_num)]
    norm_num [round2, round_eq]
  refine ⟨by decide, by decide, by decide, h4, ?_⟩
  rw [h4]
  decide

/-! ## Claim C4 -/

/-- Claim C4, counterexample: an extracted user price of exactly 0 (present,
no earlier rule applies, anchor 400 is positive, gap would be 1 and thus in
the greater-than-0.20 tier) does not reach the gap rule: Python truthiness
`if user_price:` treats 0.0 as absent, so the engine holds and steers to
delivery instead of emitting `round(400 * 0.995, 2) = 398`. -/
theorem c4_zero_price_not_gap_rule :
    generate_turn_guidance ⟨some 0, none, none⟩ "zero"
      (guidanceHistory offer400conv "zero") "" = .ok (.holdDiscussDelivery 400) ∧
    generate_turn_guidance ⟨some 0, none, none⟩ "zero"
      (guidanceHistory offer400conv "zero") "" ≠ .ok (.lowball 0 398) ∧
    lastAiAnchor (guidanceHistory offer400conv "zero") "" = .ok 400 := by decide

/-- Claim C4, amended: for every positive anchor and extracted *nonzero* user
price to which no earlier rule applies, the engine computes
`gap = (A - p) / A` and emits exactly `round2` of the anchor times 0.995,
0.975 or 0.985 according to the gap tier. -/
theorem c4_gap_tier_exact_offers (ex : ExtractedTerms) (ui : String)
    (h : List Message) (dps : String) (p A : ℚ)
    (hp : ex.price = some p) (hp0 : p ≠ 0)
    (hdeal : (detect_deal_readiness h (some ex)).1 = false)
    (hanchor : lastAiAnchor h dps = .ok A)
    (hruleA : ruleAResult ex ui A (detect_deal_readiness h (some ex)).2 = .ok none)
    (hvol : (pyTruthy ex.volume && decide (ex.volume.getD 0 < (1000 : ℚ))) = false)
    (htypo : ¬ p > A)
    (hstale : stalemateGuard ui h = false)
    (hA0 : A ≠ 0) :
    generate_turn_guidance ex ui h dps =
      .ok (if (A - p) / A > 20 / 100 then .lowball p (round2 (A * (995 / 1000)))
           else if (A - p) / A < 10 / 100 then
             .significantMove (round2 (A * (975 / 1000)))
           else .standardMove (round2 (A * (985 / 1000)))) :=
  guidance_gap_eval ex ui h dps p A hp hp0 hdeal hanchor hruleA hvol htypo
    hstale hA0

/-- Claim C4, witness: with the counterpart anchored at 400, user prices 300,
370 and 340 produce exactly the offers 398, 390 and 394 of the three tiers. -/
theorem c4_gap_tier_exact_offers_witness :
    generate_turn_guidance ⟨some 300, none, none⟩ "counter"
      (guidanceHistory offer400conv "counter") "" = .ok (.lowball 300 398) ∧
    generate_turn_guidance ⟨some 370, none, none⟩ "counter"
      (guidanceHistory offer400conv "counter") "" = .ok (.significantMove 390) ∧
    generate_turn_guidance ⟨some 340, none, none⟩ "counter"
      (guidanceHistory offer400conv "counter") "" = .ok (.standardMove 394) := by
  refine ⟨?_, ?_, ?_⟩
  · have h := c4_gap_tier_exact_offers ⟨some 300, none, none⟩ "counter"
      (guidanceHistory offer400conv "counter") "" 300 400
      rfl (by norm_num) (by decide) (by decide) (by decide) (by decide)
      (by norm_num) (by decide) (by norm_num)
    rw [h, if_pos (by norm_num)]
    norm_num [round2, round_eq]
  · have h := c4_gap_tier_exact_offers ⟨some 370, none, none⟩ "counter"
      (guidanceHistory offer400conv "counter") "" 370 400
      rfl (by norm_num) (by decide) (by decide) (by decide) (by decide)
      (by norm_num) (by decide) (by norm_num)
    rw [h, if_neg (by norm_num), if_pos (by norm_num)]
    norm_num [round2, round_eq]
  · have h := c4_gap_tier_exact_offers ⟨some 340, none, none⟩ "counter"
      (guidanceHistory offer400conv "counter") "" 340 400
      rfl (by norm_num) (by decide) (by decide) (by decide) (by decide)
      (by norm_num) (by decide) (by norm_num)
    rw [h, if_neg (by norm_num), if_neg (by norm_num)]
    norm_num [round2, round_eq]

/-! ## Claim C5 -/

/-- Claim C5, counterexample: an extracted volume of exactly 0 (present and
strictly below the standard 1000) together with a price above the anchor does
not trigger the volume-penalty rule: Python truthiness
`if user_volume and ...` treats 0 as absent, so the typo rule fires instead. -/
theorem c5_zero_volume_not_penalty_rule :
    generate_turn_guidance ⟨some 500, none, some 0⟩ "counter"
      (guidanceHistory offer400conv "counter") "" = .ok (.typoCheck 500 400) ∧
    generate_turn_guidance ⟨some 500, none, some 0⟩ "counter"
      (guidanceHistory offer400conv "counter") "" ≠ .ok (.volumePenalty 0 400) := by
  decide

/-- Claim C5, amended: for every extracted *nonzero* volume strictly below the
standard 1000 units whose extracted price also exceeds the anchor, the engine
emits the volume-penalty refusal, not the typo check, although the typo guard
itself holds — the rules are evaluated in fixed order, first match wins. -/
theorem c5_volume_penalty_precedes_typo (ex : ExtractedTerms) (ui : String)
    (h : List Message) (dps : String) (v p A : ℚ)
    (hv : ex.volume = some v) (hv0 : v ≠ 0) (hvlt : v < 1000)
    (hp : ex.price = some p) (hp0 : p ≠ 0) (hpgt : p > A)
    (hdeal : (detect_deal_readiness h (some ex)).1 = false)
    (hanchor : lastAiAnchor h dps = .ok A)
    (hruleA : ruleAResult ex ui A (detect_deal_readiness h (some ex)).2 = .ok none) :
    generate_turn_guidance ex ui h dps = .ok (.volumePenalty v A) ∧
    (pyTruthy ex.price && decide (ex.price.getD 0 > A)) = true ∧
    generate_turn_guidance ex ui h dps ≠ .ok (.typoCheck p A) := by
  have main : generate_turn_guidance ex ui h dps = .ok (.volumePenalty v A) := by
    unfold generate_turn_guidance
    rw [hanchor]
    simp only [hdeal, Bool.false_eq_true, if_false, hruleA]
    unfold laterRules
    simp [hv, pyTruthy, hv0, hvlt]
  have hguard : (pyTruthy ex.price && decide (ex.price.getD 0 > A)) = true := by
    simp [hp, pyTruthy, hp0, hpgt]
  refine ⟨main, hguard, ?_⟩
  rw [main]
  simp

/-- Claim C5, witness: with volume 600, price 500 and anchor 400 the engine
refuses the discount and holds at 400 rather than asking about a typo. -/
theorem c5_volume_penalty_precedes_typo_witness :
    generate_turn_guidance ⟨some 500, none, some 600⟩ "counter"
      (guidanceHistory offer400conv "counter") "" = .ok (.volumePenalty 600 400) ∧
    (pyTruthy (⟨some 500, none, some 600⟩ : ExtractedTerms).price &&
      decide ((⟨some 500, none, some 600⟩ : ExtractedTerms).price.getD 0 > (400 : ℚ))) =
      true ∧
    generate_turn_guidance ⟨some 500, none, some 600⟩ "counter"
      (guidanceHistory offer400conv "counter") "" ≠ .ok (.typoCheck 500 400) :=
  c5_volume_penalty_precedes_typo ⟨some 500, none, some 600⟩ "counter"
    (guidanceHistory offer400conv "counter") "" 600 500 400
    rfl (by norm_num) (by norm_num) rfl (by norm_num) (by norm_num) (by decide)
    (by decide) (by decide)

/-! ## Claim C6 -/

/-- Claim C6: every generated `DealParameters` value satisfies
`reservation < target < opening` for the price anchors and for the delivery
anchors, for any seed (or none), any start state, and any generator whose
`uniform` and `randint` draws respect their requested ranges. -/
theorem c6_anchor_ordering (R : RandomModule) (seed : Option PySeed) (s0 : R.S)
    (hU : ∀ s a b, a ≤ b → a ≤ (R.uniform s a b).1 ∧ (R.uniform s a b).1 ≤ b)
    (hR : ∀ s a b, a ≤ b → a ≤ (R.randint s a b).1 ∧ (R.randint s a b).1 ≤ b) :
    ((generate_deal_parameters R seed s0).1.price.reservation <
        (generate_deal_parameters R seed s0).1.price.target ∧
      (generate_deal_parameters R seed s0).1.price.target <
        (generate_deal_parameters R seed s0).1.price.opening) ∧
    (generate_deal_parameters R seed s0).1.delivery.reservation <
        (generate_deal_parameters R seed s0).1.delivery.target ∧
      (generate_deal_parameters R seed s0).1.delivery.target <
        (generate_deal_parameters R seed s0).1.delivery.opening := by
  unfold generate_deal_parameters
  exact draw_ordered R _ hU hR

/-- Claim C6, witness: the ordering at the concrete lower-bound generator. -/
theorem c6_anchor_ordering_witness :
    ((generate_deal_parameters R0 none ()).1.price.reservation <
        (generate_deal_parameters R0 none ()).1.price.target ∧
      (generate_deal_parameters R0 none ()).1.price.target <
        (generate_deal_parameters R0 none ()).1.price.opening) ∧
    (generate_deal_parameters R0 none ()).1.delivery.reservation <
        (generate_deal_parameters R0 none ()).1.delivery.target ∧
      (generate_deal_parameters R0 none ()).1.delivery.target <
        (generate_deal_parameters R0 none ()).1.delivery.opening :=
  c6_anchor_ordering R0 none () (fun _ a _ hab => ⟨le_refl a, hab⟩)
    (fun _ a _ hab => ⟨le_refl a, hab⟩)

/-! ## Claim C7 -/

/-- Claim C7: two runs of `generate_deal_parameters` with the same non-absent
seed produce identical parameters whatever the incoming generator states,
because seeding replaces the state by a function of the seed alone. -/
theorem c7_same_seed_same_parameters (R : RandomModule) (sv : PySeed)
    (s0 s1 : R.S) :
    (generate_deal_parameters R (some sv) s0).1 =
      (generate_deal_parameters R (some sv) s1).1 := rfl

/-- Claim C7, witness: the two-run equality at a concrete generator and a
concrete string seed. -/
theorem c7_same_seed_same_parameters_witness :
    (generate_deal_parameters R0 (some (Sum.inl "student-42")) ()).1 =
      (generate_deal_parameters R0 (some (Sum.inl "student-42")) ()).1 :=
  c7_same_seed_same_parameters R0 (Sum.inl "student-42") () ()

/-! ## Claim C8 -/

/-- Claim C8: whenever the inspected message contains one of the specified
negation tokens and contains neither "confirmed" nor "agreed", the readiness
detector suppresses the agreement signal and returns not-ready with absent
terms, regardless of the extracted or historical price and delivery. -/
theorem c8_negation_suppresses_readiness (h : List Message)
    (c : Option ExtractedTerms) (n : String) (hn : n ∈ claimNegationTokens)
    (hin : containsSub n.toList (lcs (h.getLastD ⟨"", ""⟩).content) = true)
    (hconf : containsSub "confirmed".toList (lcs (h.getLastD ⟨"", ""⟩).content) = false)
    (hagr : containsSub "agreed".toList (lcs (h.getLastD ⟨"", ""⟩).content) = false) :
    detect_deal_readiness h c = (false, none) := by
  have hsig : hasAgreementSignal (lcs (h.getLastD ⟨"", ""⟩).content) = false := by
    unfold hasAgreementSignal
    have hnegAny :
        (negations.any fun m =>
          containsSub m.toList (lcs (h.getLastD ⟨"", ""⟩).content)) = true := by
      rw [List.any_eq_true]
      refine ⟨n, ?_, hin⟩
      fin_cases hn <;> decide
    rw [hnegAny, hconf, hagr]
    simp
  rw [List.getLastD_eq_getLast?] at hsig
  unfold detect_deal_readiness
  by_cases hlen : h.length < 2
  · rw [if_pos hlen]
  · rw [if_neg hlen]
    simp [hsig]

/-- Claim C8, witness: the user message "I don\x27t agree" never triggers
readiness, even though price 400 and delivery 30 are resolvable from both the
current extraction and the history. -/
theorem c8_negation_suppresses_readiness_witness :
    detect_deal_readiness
      [⟨"assistant", "Our price is $400 with 30 days delivery."⟩,
       ⟨"user", "I don\x27t agree"⟩]
      (some ⟨some 400, some 30, none⟩) = (false, none) :=
  c8_negation_suppresses_readiness
    [⟨"assistant", "Our price is $400 with 30 days delivery."⟩,
     ⟨"user", "I don\x27t agree"⟩]
    (some ⟨some 400, some 30, none⟩) "don\x27t" (by decide) (by decide)
    (by decide) (by decide)

/-! ## Claim C9 -/

/-- Claim C9, counterexample: with a deal-parameters text whose
`Opening Price: $` group is not a parseable float (here a bare dot) and no
counterpart price in the history, the anchor computation raises `ValueError`
inside `generate_turn_guidance`, so a turn with an extracted user price never
reaches the gap rules and the delivered guidance degrades to the generic
fallback — the anchor is not always defined for arbitrary deal-parameter
texts. -/
theorem c9_malformed_opening_price_crash :
    lastAiAnchor [] "Opening Price: $." =
      .error "ValueError: could not convert string to float" ∧
    generate_turn_guidance ⟨some 340, none, none⟩ "counter" []
      "Opening Price: $." =
      .error "ValueError: could not convert string to float" ∧
    computeTurnGuidance ⟨some 340, none, none⟩ "counter" []
      "Opening Price: $." = .negotiateProfessionally := by decide

/-- Claim C9, amended: whenever the deal-parameters text has a well-formed (or
no) `Opening Price: $` group — as every `format_deal_parameters` output does —
the anchor always resolves to a numeric value, following exactly the chain:
most recent truthy counterpart price, else the parsed opening price, else the
fixed default 400. -/
theorem c9_anchor_resolution_total (h : List Message) (dps : String)
    (hw : openingWellFormed dps = true) :
    (∃ v, lastAiAnchor h dps = .ok v) ∧
    (∀ p, scanLastAiPrice h.reverse = some p → lastAiAnchor h dps = .ok p) ∧
    (scanLastAiPrice h.reverse = none → dps = "" → lastAiAnchor h dps = .ok 400) ∧
    (scanLastAiPrice h.reverse = none → openingScan dps.toList = none →
      lastAiAnchor h dps = .ok 400) ∧
    (∀ grp v, scanLastAiPrice h.reverse = none → dps ≠ "" →
      openingScan dps.toList = some grp → pyFloatDots grp = some v →
      lastAiAnchor h dps = .ok v) := by
  have comp2 : ∀ p, scanLastAiPrice h.reverse = some p →
      lastAiAnchor h dps = .ok p := by
    intro p hp
    simp [lastAiAnchor, hp]
  have comp3 : scanLastAiPrice h.reverse = none → dps = "" →
      lastAiAnchor h dps = .ok 400 := by
    intro hs hd
    simp [lastAiAnchor, hs, hd]
  have comp4 : scanLastAiPrice h.reverse = none → openingScan dps.toList = none →
      lastAiAnchor h dps = .ok 400 := by
    intro hs ho
    by_cases hd : dps = ""
    · simp [lastAiAnchor, hs, hd]
    · have ho2 : openingScan dps.data = none := ho
      simp [lastAiAnchor, hs, hd, ho2]
  have comp5 : ∀ grp v, scanLastAiPrice h.reverse = none → dps ≠ "" →
      openingScan dps.toList = some grp → pyFloatDots grp = some v →
      lastAiAnchor h dps = .ok v := by
    intro grp v hs hne ho hf
    have ho2 : openingScan dps.data = some grp := ho
    simp [lastAiAnchor, hs, hne, ho2, hf]
  refine ⟨?_, comp2, comp3, comp4, comp5⟩
  cases hscan : scanLastAiPrice h.reverse with
  | some p => exact ⟨p, comp2 p hscan⟩
  | none =>
    by_cases hd : dps = ""
    · exact ⟨400, comp3 hscan hd⟩
    · cases hopen : openingScan dps.toList with
      | none => exact ⟨400, comp4 hscan hopen⟩
      | some grp =>
        unfold openingWellFormed at hw
        simp only [hopen] at hw
        cases hflt : pyFloatDots grp with
        | none => rw [hflt] at hw; simp at hw
        | some v => exact ⟨v, comp5 grp v hscan hd hopen hflt⟩

/-- Claim C9, witness: the resolution chain at concrete inputs — empty history
and empty parameters text default to 400, and a counterpart message carrying
450 dollars resolves to 450. -/
theorem c9_anchor_resolution_total_witness :
    lastAiAnchor [] "" = .ok 400 ∧
    lastAiAnchor (guidanceHistory
      [⟨"assistant", "How about $450 and 30 days?"⟩] "hmm") "" = .ok 450 := by
  constructor
  · exact (c9_anchor_resolution_total [] "" (by decide)).2.2.1 (by decide) rfl
  · exact (c9_anchor_resolution_total (guidanceHistory
      [⟨"assistant", "How about $450 and 30 days?"⟩] "hmm") "" (by decide)).2.1
      450 (by decide)

/-! ## Claim C10 -/

/-- Claim C10: the term extractor fails soft. If the oracle call fails, or the
oracle succeeds but its (cleaned) output is not parseable JSON, the extractor
returns the all-absent terms dictionary instead of propagating the error. -/
theorem c10_extraction_fails_soft (loads : List Char → Except String Jv)
    (outcome : Except String String) :
    (∀ e, outcome = .error e →
      extract_negotiation_terms loads outcome = allAbsentTermsJv) ∧
    (∀ t e, outcome = .ok t →
      loads (clean_json (pyStripChars t.toList)) = .error e →
      extract_negotiation_terms loads outcome = allAbsentTermsJv) := by
  constructor
  · rintro e rfl
    rfl
  · rintro t e rfl hparse
    unfold extract_negotiation_terms
    simp only [hparse]

/-- Claim C10, witness: a non-JSON oracle reply degrades to the all-absent
terms under a parser that rejects it. -/
theorem c10_extraction_fails_soft_witness :
    extract_negotiation_terms (fun _ => .error "Expecting value: line 1 column 1")
      (.ok "The price sounds reasonable to me!") = allAbsentTermsJv :=
  (c10_extraction_fails_soft (fun _ => .error "Expecting value: line 1 column 1")
    (.ok "The price sounds reasonable to me!")).2
    "The price sounds reasonable to me!" "Expecting value: line 1 column 1"
    rfl rfl
